import Mathlib

/-!
Verification of the bubblecon terminal dashboard's event-driven core.

The program is a Bubble Tea TUI (`main.go`): a model holds the server
registry, a rolling log, the active-server name, and a status line; the
`Update` reducer consumes key events and asynchronous RCON / Docker result
messages, mutates the model, and optionally launches a command executor.

This file shallowly embeds that core: `serverConfig`, the message types,
the model (widget-internal state is reduced to the textarea's current text
and the list widget's selection index; the list's items are the server
registry, set once in `initialModel` and never changed), `pushLog`,
`setStatus`, `activeServer`, `initialModel`, the argument computation of
`dockerAction` and the reducer `update`.  Wall-clock state (`statusTimer`)
and rendering are out of scope and omitted.  External widget behaviour
(text editing, list navigation) is modelled by the `widget` event, which
may set the textarea text and list index to arbitrary values — an
over-approximation of anything the real widgets can do, since they touch
no other model field.
-/

namespace Bubblecon

/-- `serverConfig` from main.go: one entry of the server registry. -/
structure serverConfig where
  Name : String
  Address : String
  Password : String
  Container : String
deriving Repr, DecidableEq

/-- `rconResultMsg`: result event of the RCON executor.  The Go `err error`
field is embedded as `Option String` holding the rendered error text. -/
structure rconResultMsg where
  serverName : String
  cmd : String
  output : String
  err : Option String
deriving Repr, DecidableEq

/-- `dockerResultMsg`: result event of the Docker executor. -/
structure dockerResultMsg where
  serverName : String
  action : String
  output : String
  err : Option String
deriving Repr, DecidableEq

/-- The commands (`tea.Cmd`) the reducer can return: launch the RCON
executor, launch the Docker executor, or quit. -/
inductive Cmd where
  | sendRCON (s : serverConfig) (cmd : String)
  | dockerAction (s : serverConfig) (action : String)
  | quit
deriving Repr, DecidableEq

/-- The `model` struct.  `listIndex` is the list widget's `Index()`;
`input` is the textarea's `Value()`.  The list widget's items are the
`servers` field (set once in `initialModel`, never modified). -/
structure model where
  servers : List serverConfig
  listIndex : Nat
  input : String
  logLines : List String
  activeName : String
  width : Int
  height : Int
  quitting : Bool
  statusLine : String
deriving Repr, DecidableEq

/-- `pushLog`: append a line, then keep only the most recent 500. -/
def pushLog (logLines : List String) (line : String) : List String :=
  let ls := logLines ++ [line]
  if ls.length > 500 then ls.drop (ls.length - 500) else ls

/-- `setStatus`: set the status line (the wall-clock `statusTimer` update
is omitted). -/
def setStatus (m : model) (msg : String) : model :=
  { m with statusLine := msg }

/-- `activeServer`: the first registry entry whose name equals
`activeName`, or none when `activeName` is empty or absent. -/
def activeServer (m : model) : Option serverConfig :=
  if m.activeName = "" then none
  else m.servers.find? (fun s => s.Name == m.activeName)

/-- `initialModel`: log starts at ["Ready."]; with a non-empty registry the
first server becomes active at index 0 and a log line is pushed, otherwise
a warning is pushed. -/
def initialModel (servers : List serverConfig) : model :=
  let m : model :=
    { servers := servers, listIndex := 0, input := "",
      logLines := ["Ready."], activeName := "", width := 0, height := 0,
      quitting := false, statusLine := "" }
  match servers with
  | [] => { m with logLines := pushLog m.logLines "⚠️ No servers configured. Please check config.yaml" }
  | s :: _ =>
      { m with activeName := s.Name, listIndex := 0,
               logLines := pushLog m.logLines ("Active server: " ++ s.Name) }

/-- The argument-list computation of `dockerAction` in main.go: error when
no container is configured, else the docker CLI arguments for the action,
else the unknown-action error.  Go's switch is an if-chain. -/
def dockerActionArgs (s : serverConfig) (action : String) : Except String (List String) :=
  if s.Container = "" then .error "no container configured"
  else if action = "start" then .ok ["start", s.Container]
  else if action = "stop" then .ok ["stop", s.Container]
  else if action = "restart" then .ok ["restart", s.Container]
  else if action = "status" then .ok ["inspect", "--format", "\x7b\x7b.State.Status\x7d\x7d", s.Container]
  else .error ("unknown action: " ++ action)

/-- The Docker executor (`dockerAction`'s returned closure), parametrised
by the external process runner `external` (combined output and optional
error of `docker <args>`).  On either error branch the runner is not
invoked and the message carries the error with empty output. -/
def dockerActionRun (s : serverConfig) (action : String)
    (external : List String → String × Option String) : dockerResultMsg :=
  match dockerActionArgs s action with
  | .error e => { serverName := s.Name, action := action, output := "", err := some e }
  | .ok args =>
      let r := external args
      { serverName := s.Name, action := action, output := r.1, err := r.2 }

/-- Events consumed by `Update`: window resize, key presses (by their
`msg.String()` name), the two result messages, and `widget`, the
over-approximation of unmatched input reaching the external widgets. -/
inductive Event where
  | windowSize (width height : Int)
  | key (k : String)
  | rconResult (msg : rconResultMsg)
  | dockerResult (msg : dockerResultMsg)
  | widget (newInput : String) (newIndex : Nat)
deriving Repr

/-- `Update` from main.go: the event dispatcher.  Returns the new model
and the optional command to launch.  Go's `switch msg.String()` is an
if-chain on the key name. -/
def update (m : model) (e : Event) : model × Option Cmd :=
  match e with
  | .windowSize w h => ({ m with width := w, height := h }, none)
  | .key k =>
    if k = "ctrl+c" then
      ({ m with quitting := true }, some .quit)
    else if k = "tab" then
      if h : 0 < m.servers.length then
        let idx := (m.listIndex + 1) % m.servers.length
        let it := m.servers.get ⟨idx, Nat.mod_lt _ h⟩
        ({ m with listIndex := idx, activeName := it.Name,
                  logLines := pushLog m.logLines ("Active server: " ++ it.Name) },
         none)
      else (m, none)
    else if k = "ctrl+s" then
      match activeServer m with
      | none => ({ m with logLines := pushLog m.logLines "❌ No active server selected." }, none)
      | some s =>
        if s.Container = "" then
          ({ m with logLines := pushLog m.logLines ("[" ++ s.Name ++ "] ⚠️ No container configured") }, none)
        else
          (setStatus { m with logLines := pushLog m.logLines ("[" ++ s.Name ++ "] 🐳 Starting container: " ++ s.Container) } "Starting container...",
           some (.dockerAction s "start"))
    else if k = "ctrl+x" then
      match activeServer m with
      | none => ({ m with logLines := pushLog m.logLines "❌ No active server selected." }, none)
      | some s =>
        if s.Container = "" then
          ({ m with logLines := pushLog m.logLines ("[" ++ s.Name ++ "] ⚠️ No container configured") }, none)
        else
          (setStatus { m with logLines := pushLog m.logLines ("[" ++ s.Name ++ "] 🐳 Stopping container: " ++ s.Container) } "Stopping container...",
           some (.dockerAction s "stop"))
    else if k = "ctrl+r" then
      match activeServer m with
      | none => ({ m with logLines := pushLog m.logLines "❌ No active server selected." }, none)
      | some s =>
        if s.Container = "" then
          ({ m with logLines := pushLog m.logLines ("[" ++ s.Name ++ "] ⚠️ No container configured") }, none)
        else
          (setStatus { m with logLines := pushLog m.logLines ("[" ++ s.Name ++ "] 🐳 Restarting container: " ++ s.Container) } "Restarting container...",
           some (.dockerAction s "restart"))
    else if k = "ctrl+d" then
      match activeServer m with
      | none => ({ m with logLines := pushLog m.logLines "❌ No active server selected." }, none)
      | some s =>
        if s.Container = "" then
          ({ m with logLines := pushLog m.logLines ("[" ++ s.Name ++ "] ⚠️ No container configured") }, none)
        else
          (setStatus { m with logLines := pushLog m.logLines ("[" ++ s.Name ++ "] 🐳 Checking status: " ++ s.Container) } "Checking status...",
           some (.dockerAction s "status"))
    else if k = "enter" then
      let cmdStr := m.input
      let m1 := { m with input := "" }
      if cmdStr = "" then (m1, none)
      else
        match activeServer m1 with
        | none => ({ m1 with logLines := pushLog m1.logLines "❌ No active server selected." }, none)
        | some s =>
          (setStatus { m1 with logLines := pushLog m1.logLines ("[" ++ s.Name ++ "] > " ++ cmdStr) } "Sending...",
           some (.sendRCON s cmdStr))
    else (m, none)
  | .widget newInput newIndex =>
    ({ m with input := newInput, listIndex := newIndex }, none)
  | .rconResult msg =>
    match msg.err with
    | some e =>
      (setStatus { m with logLines := pushLog m.logLines ("[" ++ msg.serverName ++ "] ⚠️ ERROR: " ++ e) } "Command failed",
       none)
    | none =>
      let out := if msg.output = "" then "(no response)" else msg.output
      (setStatus { m with logLines := pushLog m.logLines ("[" ++ msg.serverName ++ "] < " ++ out) } "OK",
       none)
  | .dockerResult msg =>
    match msg.err with
    | some e =>
      (setStatus { m with logLines := pushLog m.logLines ("[" ++ msg.serverName ++ "] 🐳 ERROR: " ++ e) } ("Docker " ++ msg.action ++ " failed"),
       none)
    | none =>
      let out := if msg.output = "" then "success" else msg.output
      (setStatus { m with logLines := pushLog m.logLines ("[" ++ msg.serverName ++ "] 🐳 " ++ msg.action ++ ": " ++ out) } ("Docker " ++ msg.action ++ " OK"),
       none)

/-- One `select-next` (tab key) transition, model part. -/
def tabStep (m : model) : model :=
  (update m (.key "tab")).1

/-- Naive prefix test on character lists. -/
def listStartsWith : List Char → List Char → Bool
  | [], _ => true
  | _ :: _, [] => false
  | p :: ps, c :: cs => p == c && listStartsWith ps cs

/-- Naive substring test: does `p` occur contiguously in `s`?  Used to
formalise "the log line contains / is tagged with X". -/
def listHasSub (p : List Char) : List Char → Bool
  | [] => p.isEmpty
  | c :: rest => listStartsWith p (c :: rest) || listHasSub p rest

/-- String view of `listHasSub`. -/
def strHasSub (s pat : String) : Bool :=
  listHasSub pat.data s.data

/-- Concrete one-server registry used by witnesses (no container). -/
def sA : serverConfig := ⟨"A", "1.2.3.4:27015", "x", ""⟩

/-- Concrete server with a container, used by witnesses. -/
def sB : serverConfig := ⟨"B", "5.6.7.8:27015", "y", "mc"⟩

/-! ### Step-equation lemmas for the reducer -/

theorem update_tab (m : model) : update m (.key "tab") =
    (if h : 0 < m.servers.length then
      ({ m with listIndex := (m.listIndex + 1) % m.servers.length,
                activeName := (m.servers.get ⟨(m.listIndex + 1) % m.servers.length, Nat.mod_lt _ h⟩).Name,
                logLines := pushLog m.logLines ("Active server: " ++
                  (m.servers.get ⟨(m.listIndex + 1) % m.servers.length, Nat.mod_lt _ h⟩).Name) },
       none)
    else (m, none)) := rfl

theorem update_enter (m : model) : update m (.key "enter") =
    (if m.input = "" then ({ m with input := "" }, none)
     else
       match activeServer { m with input := "" } with
       | none => ({ m with input := "", logLines := pushLog m.logLines "❌ No active server selected." }, none)
       | some s =>
         ({ m with input := "", logLines := pushLog m.logLines ("[" ++ s.Name ++ "] > " ++ m.input),
                   statusLine := "Sending..." },
          some (.sendRCON s m.input))) := rfl

theorem update_ctrlS (m : model) : update m (.key "ctrl+s") =
    (match activeServer m with
     | none => ({ m with logLines := pushLog m.logLines "❌ No active server selected." }, none)
     | some s =>
       if s.Container = "" then
         ({ m with logLines := pushLog m.logLines ("[" ++ s.Name ++ "] ⚠️ No container configured") }, none)
       else
         ({ m with logLines := pushLog m.logLines ("[" ++ s.Name ++ "] 🐳 Starting container: " ++ s.Container),
                   statusLine := "Starting container..." },
          some (.dockerAction s "start"))) := rfl

theorem update_ctrlX (m : model) : update m (.key "ctrl+x") =
    (match activeServer m with
     | none => ({ m with logLines := pushLog m.logLines "❌ No active server selected." }, none)
     | some s =>
       if s.Container = "" then
         ({ m with logLines := pushLog m.logLines ("[" ++ s.Name ++ "] ⚠️ No container configured") }, none)
       else
         ({ m with logLines := pushLog m.logLines ("[" ++ s.Name ++ "] 🐳 Stopping container: " ++ s.Container),
                   statusLine := "Stopping container..." },
          some (.dockerAction s "stop"))) := rfl

theorem update_ctrlR (m : model) : update m (.key "ctrl+r") =
    (match activeServer m with
     | none => ({ m with logLines := pushLog m.logLines "❌ No active server selected." }, none)
     | some s =>
       if s.Container = "" then
         ({ m with logLines := pushLog m.logLines ("[" ++ s.Name ++ "] ⚠️ No container configured") }, none)
       else
         ({ m with logLines := pushLog m.logLines ("[" ++ s.Name ++ "] 🐳 Restarting container: " ++ s.Container),
                   statusLine := "Restarting container..." },
          some (.dockerAction s "restart"))) := rfl

theorem update_ctrlD (m : model) : update m (.key "ctrl+d") =
    (match activeServer m with
     | none => ({ m with logLines := pushLog m.logLines "❌ No active server selected." }, none)
     | some s =>
       if s.Container = "" then
         ({ m with logLines := pushLog m.logLines ("[" ++ s.Name ++ "] ⚠️ No container configured") }, none)
       else
         ({ m with logLines := pushLog m.logLines ("[" ++ s.Name ++ "] 🐳 Checking status: " ++ s.Container),
                   statusLine := "Checking status..." },
          some (.dockerAction s "status"))) := rfl

theorem tabStep_of_pos (m : model) (h : 0 < m.servers.length) :
    tabStep m = { m with
      listIndex := (m.listIndex + 1) % m.servers.length,
      activeName := (m.servers.get ⟨(m.listIndex + 1) % m.servers.length, Nat.mod_lt _ h⟩).Name,
      logLines := pushLog m.logLines ("Active server: " ++
        (m.servers.get ⟨(m.listIndex + 1) % m.servers.length, Nat.mod_lt _ h⟩).Name) } := by
  unfold tabStep
  rw [update_tab, dif_pos h]

theorem get_congr (l₁ l₂ : List serverConfig) (i j : Nat) (hi : i < l₁.length)
    (hj : j < l₂.length) (hl : l₁ = l₂) (hij : i = j) :
    l₁.get ⟨i, hi⟩ = l₂.get ⟨j, hj⟩ := by
  subst hl; cases hij; rfl

/-- After `k+1` tab presses the registry is unchanged, the index has
advanced by `k+1` modulo the registry size, and the active name is the
entry at that index. -/
theorem tab_iter (m : model) (h : 0 < m.servers.length) (k : Nat) :
    (tabStep^[k+1] m).servers = m.servers ∧
    (tabStep^[k+1] m).listIndex = (m.listIndex + (k+1)) % m.servers.length ∧
    (tabStep^[k+1] m).activeName =
      (m.servers.get ⟨(m.listIndex + (k+1)) % m.servers.length, Nat.mod_lt _ h⟩).Name := by
  induction k with
  | zero =>
    rw [Function.iterate_one, tabStep_of_pos m h]
    exact ⟨rfl, rfl, rfl⟩
  | succ k ih =>
    obtain ⟨hs, hi, ha⟩ := ih
    rw [Function.iterate_succ_apply', tabStep_of_pos _ (hs ▸ h)]
    refine ⟨hs, ?_, ?_⟩
    · simp only [hi, hs, Nat.mod_add_mod, Nat.add_assoc]
    · refine congrArg serverConfig.Name (get_congr _ _ _ _ _ _ hs ?_)
      simp only [hi, hs, Nat.mod_add_mod, Nat.add_assoc]

/-! ### Claims -/

/-- C1 (amended): on a non-empty registry of size N, every select-next
(tab) event advances the selection index to `(index+1) mod N` and sets the
active server name to the entry at the new index; applying select-next
**N** times (not N+1) returns the selection to the original index, with
the active name then naming the entry at the original index. -/
theorem select_next_advances_mod_and_cycles_after_N (m : model)
    (h : 0 < m.servers.length) (hidx : m.listIndex < m.servers.length) :
    (tabStep m).listIndex = (m.listIndex + 1) % m.servers.length ∧
    (tabStep m).activeName =
      (m.servers.get ⟨(m.listIndex + 1) % m.servers.length, Nat.mod_lt _ h⟩).Name ∧
    (tabStep^[m.servers.length] m).listIndex = m.listIndex ∧
    (tabStep^[m.servers.length] m).activeName = (m.servers.get ⟨m.listIndex, hidx⟩).Name := by
  have h1 := tab_iter m h 0
  rw [Function.iterate_one] at h1
  obtain ⟨n, hn⟩ : ∃ n, m.servers.length = n + 1 := ⟨m.servers.length - 1, by omega⟩
  have h2 := tab_iter m h n
  rw [← hn] at h2
  have hmod : (m.listIndex + m.servers.length) % m.servers.length = m.listIndex := by
    rw [Nat.add_mod_right, Nat.mod_eq_of_lt hidx]
  refine ⟨h1.2.1, h1.2.2, ?_, ?_⟩
  · rw [h2.2.1, hmod]
  · exact h2.2.2.trans (congrArg serverConfig.Name (get_congr _ _ _ _ _ _ rfl hmod))

/-- C1 counterexample: on the two-server registry [A, B] starting at
index 0 with active name "A", applying select-next N+1 = 3 times leaves
the selection at index 1 with active name "B" — not the original entry. -/
theorem select_next_N_plus_one_not_original :
    (initialModel [sA, sB]).servers.length = 2 ∧
    (initialModel [sA, sB]).listIndex = 0 ∧
    (initialModel [sA, sB]).activeName = "A" ∧
    (tabStep^[3] (initialModel [sA, sB])).listIndex = 1 ∧
    (tabStep^[3] (initialModel [sA, sB])).activeName = "B" ∧
    ¬((tabStep^[3] (initialModel [sA, sB])).listIndex = (initialModel [sA, sB]).listIndex) ∧
    ¬((tabStep^[3] (initialModel [sA, sB])).activeName = (initialModel [sA, sB]).activeName) := by
  decide

/-- C1 witness: on the registry [A, B], after N = 2 select-next events the
selection is back at index 0 with active name "A". -/
theorem select_next_cycle_witness :
    (tabStep^[2] (initialModel [sA, sB])).listIndex = 0 ∧
    (tabStep^[2] (initialModel [sA, sB])).activeName = "A" :=
  ⟨(select_next_advances_mod_and_cycles_after_N (initialModel [sA, sB])
      (by decide) (by decide)).2.2.1,
   (select_next_advances_mod_and_cycles_after_N (initialModel [sA, sB])
      (by decide) (by decide)).2.2.2⟩

/-- C2: appending a line to the log buffer yields a buffer of length
`min (old + 1) 500` — in particular never more than 500 — and the result
is exactly the suffix of the appended sequence obtained by dropping the
oldest lines beyond the bound (FIFO eviction, insertion order kept). -/
theorem pushLog_bound_and_fifo (l : List String) (x : String) :
    (pushLog l x).length = min (l.length + 1) 500 ∧
    (pushLog l x).length ≤ 500 ∧
    pushLog l x = (l ++ [x]).drop (l.length + 1 - 500) := by
  unfold pushLog
  simp only [List.length_append, List.length_cons, List.length_nil, Nat.zero_add]
  split_ifs with h
  · refine ⟨?_, ?_, rfl⟩ <;>
      (rw [List.length_drop]; simp only [List.length_append, List.length_cons, List.length_nil]; omega)
  · refine ⟨?_, ?_, ?_⟩
    · simp only [List.length_append, List.length_cons, List.length_nil]; omega
    · simp only [List.length_append, List.length_cons, List.length_nil]; omega
    · rw [Nat.sub_eq_zero_of_le (by omega), List.drop_zero]

/-- C3: an RCON result with an error appends the log line
"[server] ⚠️ ERROR: cause" (the "ERROR: <cause>" text tagged with the
server name) and sets the status to "Command failed"; a result without an
error appends "[server] < output", substituting "(no response)" when the
output is empty, and sets the status to "OK".  No command is launched. -/
theorem rcon_result_log_and_status (m : model) (msg : rconResultMsg) :
    update m (.rconResult msg) =
      (match msg.err with
       | some e =>
         { m with logLines := pushLog m.logLines ("[" ++ msg.serverName ++ "] ⚠️ ERROR: " ++ e),
                  statusLine := "Command failed" }
       | none =>
         { m with logLines := pushLog m.logLines ("[" ++ msg.serverName ++ "] < " ++
                    (if msg.output = "" then "(no response)" else msg.output)),
                  statusLine := "OK" },
       none) := by
  obtain ⟨n, c, o, err⟩ := msg
  cases err <;> rfl

/-- C6: submitting an empty command text only clears the input; the log
buffer, active server, status line and every other model field are
unchanged, and no executor command is launched. -/
theorem submit_empty_noop (m : model) (h : m.input = "") :
    update m (.key "enter") = ({ m with input := "" }, none) := by
  rw [update_enter, if_pos h]

/-- C6 witness: on the freshly initialised model (whose input is empty),
the enter key changes nothing and launches nothing. -/
theorem submit_empty_noop_witness :
    update (initialModel [sA, sB]) (.key "enter") = (initialModel [sA, sB], none) :=
  submit_empty_noop (initialModel [sA, sB]) rfl

/-- C4 (amended): a container (Docker) result with an error appends the
log line "[server] 🐳 ERROR: cause" — tagged with the server name only,
the action does not appear in the line — and sets the status to
"Docker <action> failed"; a result without an error appends
"[server] 🐳 <action>: <output>", substituting "success" when the output
is empty, and sets the status to "Docker <action> OK". -/
theorem docker_result_log_and_status (m : model) (msg : dockerResultMsg) :
    update m (.dockerResult msg) =
      (match msg.err with
       | some e =>
         { m with logLines := pushLog m.logLines ("[" ++ msg.serverName ++ "] 🐳 ERROR: " ++ e),
                  statusLine := "Docker " ++ msg.action ++ " failed" }
       | none =>
         { m with logLines := pushLog m.logLines ("[" ++ msg.serverName ++ "] 🐳 " ++ msg.action ++ ": " ++
                    (if msg.output = "" then "success" else msg.output)),
                  statusLine := "Docker " ++ msg.action ++ " OK" },
       none) := by
  obtain ⟨n, a, o, err⟩ := msg
  cases err <;> rfl

/-- C4 counterexample: for the failed container result
(server "A", action "start", error "boom") the appended log line is
"[A] 🐳 ERROR: boom" — it does not contain the action "start" — and the
status is "Docker start failed", not "start failed" as claimed. -/
theorem docker_result_status_counterexample :
    (update (initialModel [sA]) (.dockerResult ⟨"A", "start", "", some "boom"⟩)).1.logLines.getLast? = some "[A] 🐳 ERROR: boom" ∧
    strHasSub "[A] 🐳 ERROR: boom" "start" = false ∧
    (update (initialModel [sA]) (.dockerResult ⟨"A", "start", "", some "boom"⟩)).1.statusLine = "Docker start failed" ∧
    ¬((update (initialModel [sA]) (.dockerResult ⟨"A", "start", "", some "boom"⟩)).1.statusLine = "start failed") := by
  decide

/-- C5 (amended): submitting a non-empty command text while an active
server is set appends the echo line "[<server>] > <text>", sets the status
to "Sending..." (three ASCII periods, not the single ellipsis character),
clears the input, and launches the RCON executor for the active server and
that text. -/
theorem submit_command_log_status_launch (m : model) (s : serverConfig)
    (hne : ¬(m.input = "")) (ha : activeServer m = some s) :
    update m (.key "enter") =
      ({ m with input := "", logLines := pushLog m.logLines ("[" ++ s.Name ++ "] > " ++ m.input),
                statusLine := "Sending..." },
       some (.sendRCON s m.input)) := by
  rw [update_enter, if_neg hne]
  have hact : activeServer { m with input := "" } = activeServer m := rfl
  rw [hact, ha]

/-- C5 counterexample: submitting "status" with active server "A" sets
the status to "Sending..." (ASCII), which is not the claimed string
"Sending…" (U+2026 ellipsis); the echo line and the launch are as
claimed. -/
theorem submit_status_sending_counterexample :
    (update { (initialModel [sA]) with input := "status" } (.key "enter")).1.statusLine = "Sending..." ∧
    ¬((update { (initialModel [sA]) with input := "status" } (.key "enter")).1.statusLine = "Sending…") ∧
    (update { (initialModel [sA]) with input := "status" } (.key "enter")).1.logLines.getLast? = some "[A] > status" ∧
    (update { (initialModel [sA]) with input := "status" } (.key "enter")).2 = some (.sendRCON sA "status") := by
  decide

/-- C5 witness: submitting "status" on the one-server registry [A]
appends "[A] > status", sets status "Sending...", and launches the RCON
executor for (A, "status"). -/
theorem submit_command_witness :
    update { (initialModel [sA]) with input := "status" } (.key "enter") =
      ({ (initialModel [sA]) with
           input := "",
           logLines := pushLog (initialModel [sA]).logLines "[A] > status",
           statusLine := "Sending..." },
       some (.sendRCON sA "status")) :=
  submit_command_log_status_launch _ sA (by decide) (by decide)

/-- C7: any of the four container-action keys, when the active server has
no container reference, appends the "[<server>] ⚠️ No container
configured" warning line and launches no command, so the external process
executor is never invoked. -/
theorem container_action_no_container (m : model) (k : String) (s : serverConfig)
    (hk : k = "ctrl+s" ∨ k = "ctrl+x" ∨ k = "ctrl+r" ∨ k = "ctrl+d")
    (ha : activeServer m = some s) (hc : s.Container = "") :
    update m (.key k) =
      ({ m with logLines := pushLog m.logLines ("[" ++ s.Name ++ "] ⚠️ No container configured") }, none) := by
  rcases hk with rfl | rfl | rfl | rfl
  · rw [update_ctrlS, ha]; simp [hc]
  · rw [update_ctrlX, ha]; simp [hc]
  · rw [update_ctrlR, ha]; simp [hc]
  · rw [update_ctrlD, ha]; simp [hc]

/-- C7 witness: ctrl+s on the registry [A] (whose container reference is
empty) appends the warning and launches nothing. -/
theorem container_action_no_container_witness :
    update (initialModel [sA]) (.key "ctrl+s") =
      ({ (initialModel [sA]) with
           logLines := pushLog (initialModel [sA]).logLines "[A] ⚠️ No container configured" }, none) :=
  container_action_no_container (initialModel [sA]) "ctrl+s" sA (Or.inl rfl) (by decide) rfl

/-- C8 (amended): for a container lifecycle request whose container
reference is non-empty and whose action is not one of start, stop,
restart, status, the executor produces the error
"unknown action: <action>" (which contains "unknown action") and the
external process runner is never invoked — the result is the same for
every runner.  (With an empty container reference the earlier
"no container configured" check fires instead; see the counterexample.) -/
theorem unknown_action_error (s : serverConfig) (a : String)
    (ext1 ext2 : List String → String × Option String)
    (hc : ¬(s.Container = ""))
    (ha : a ∉ ["start", "stop", "restart", "status"]) :
    dockerActionArgs s a = .error ("unknown action: " ++ a) ∧
    strHasSub ("unknown action: " ++ a) "unknown action" = true ∧
    dockerActionRun s a ext1 = dockerActionRun s a ext2 := by
  simp only [List.mem_cons, List.not_mem_nil, or_false, not_or] at ha
  obtain ⟨h1, h2, h3, h4⟩ := ha
  have hargs : dockerActionArgs s a = .error ("unknown action: " ++ a) := by
    unfold dockerActionArgs
    rw [if_neg hc, if_neg h1, if_neg h2, if_neg h3, if_neg h4]
  refine ⟨hargs, rfl, ?_⟩
  unfold dockerActionRun
  rw [hargs]

/-- C8 counterexample: the request (server "A" with empty container
reference, action "frobnicate") has an unrecognized action, yet the
executor's error is "no container configured" — the container check runs
first — and that error does not contain "unknown action". -/
theorem unknown_action_empty_container_counterexample :
    dockerActionArgs sA "frobnicate" = .error "no container configured" ∧
    strHasSub "no container configured" "unknown action" = false :=
  ⟨rfl, rfl⟩

/-- C8 witness: server "B" (container "mc") with action "frobnicate"
yields the "unknown action: frobnicate" error, and two different external
runners produce the identical result. -/
theorem unknown_action_witness :
    dockerActionArgs sB "frobnicate" = .error "unknown action: frobnicate" ∧
    strHasSub "unknown action: frobnicate" "unknown action" = true ∧
    dockerActionRun sB "frobnicate" (fun _ => ("", none)) =
      dockerActionRun sB "frobnicate" (fun args => (String.intercalate " " args, some "exit 1")) :=
  unknown_action_error sB "frobnicate" _ _ (by decide) (by decide)

/-- C10: whenever the dispatcher launches the Docker executor, the server
descriptor it passes has a non-empty container reference, and the
executor's argument computation succeeds — so neither the
"no container configured" branch nor the "unknown action" branch is
reachable for dispatcher-launched requests. -/
theorem launched_docker_has_container (m : model) (e : Event) (s : serverConfig) (a : String)
    (h : (update m e).2 = some (.dockerAction s a)) :
    ¬(s.Container = "") ∧ ∃ args, dockerActionArgs s a = .ok args := by
  cases e with
  | windowSize w hh => simp [update] at h
  | widget ni nx => simp [update] at h
  | rconResult msg => obtain ⟨n, c, o, err⟩ := msg; cases err <;> simp [update] at h
  | dockerResult msg => obtain ⟨n, aa, o, err⟩ := msg; cases err <;> simp [update] at h
  | key k =>
    simp only [update] at h
    repeat' split at h
    all_goals simp_all
    all_goals (obtain ⟨-, rfl⟩ := h; rename_i hc; simp [dockerActionArgs, hc])

/-- C10 witness: ctrl+s on the registry [B] (container "mc") launches the
Docker executor, so the theorem's conclusion holds for that launch. -/
theorem launched_docker_witness :
    ¬(sB.Container = "") ∧ ∃ args, dockerActionArgs sB "start" = .ok args :=
  launched_docker_has_container (initialModel [sB]) (.key "ctrl+s") sB "start" (by decide)

theorem update_servers (m : model) (e : Event) : (update m e).1.servers = m.servers := by
  cases e with
  | windowSize w hh => rfl
  | widget ni nx => rfl
  | rconResult msg => obtain ⟨n, c, o, err⟩ := msg; cases err <;> rfl
  | dockerResult msg => obtain ⟨n, aa, o, err⟩ := msg; cases err <;> rfl
  | key k =>
    simp only [update]
    repeat' split
    all_goals rfl

theorem update_activeName (m : model) (e : Event) :
    (update m e).1.activeName = m.activeName ∨
    ∃ s ∈ m.servers, s.Name = (update m e).1.activeName := by
  cases e with
  | windowSize w hh => left; rfl
  | widget ni nx => left; rfl
  | rconResult msg => obtain ⟨n, c, o, err⟩ := msg; cases err <;> (left; rfl)
  | dockerResult msg => obtain ⟨n, aa, o, err⟩ := msg; cases err <;> (left; rfl)
  | key k =>
    rcases hu : update m (.key k) with ⟨m1, c⟩
    simp only [update] at hu
    repeat' split at hu
    all_goals cases hu
    all_goals first
      | (left; rfl)
      | (right; exact ⟨_, List.get_mem _ _ _, rfl⟩)

/-- States reachable from the initial model by dispatcher events. -/
inductive Reachable (servers : List serverConfig) : model → Prop where
  | init : Reachable servers (initialModel servers)
  | step (m : model) (e : Event) : Reachable servers m → Reachable servers (update m e).1

/-- C9: in every state reachable from the initial model by dispatcher
events, the registry is the startup list, and whenever the active server
name is set (non-empty) it names an entry present in that registry. -/
theorem reachable_active_in_registry (servers : List serverConfig) (m : model)
    (h : Reachable servers m) :
    m.servers = servers ∧ (¬(m.activeName = "") → ∃ s ∈ servers, s.Name = m.activeName) := by
  induction h with
  | init =>
    refine ⟨?_, ?_⟩
    · cases servers <;> rfl
    · cases servers with
      | nil => intro hne; exact absurd rfl hne
      | cons s rest => intro _; exact ⟨s, List.mem_cons_self _ _, rfl⟩
  | step m e hm ih =>
    obtain ⟨ihs, iha⟩ := ih
    refine ⟨(update_servers m e).trans ihs, ?_⟩
    intro hne
    rcases update_activeName m e with heq | ⟨s, hmem, hname⟩
    · rw [heq] at hne ⊢; exact iha hne
    · exact ⟨s, ihs ▸ hmem, hname⟩

/-- C9 witness: the initial model on the registry [A] has active name
"A", which names an entry of the registry. -/
theorem reachable_active_witness :
    ∃ s ∈ [sA], s.Name = (initialModel [sA]).activeName :=
  (reachable_active_in_registry [sA] (initialModel [sA]) Reachable.init).2 (by decide)

end Bubblecon
